import Mathlib

/-!
Shallow embedding of the ramp-automated-fiat-to-crypto ledger service
(`src/openbankapi/src/main.rs`, `src/openbankapi/src/types.rs`,
`src/openbankapi/src/contract.rs`, with the error enum taken from
`src/src/error.rs` extended by the constructors used in
`src/openbankapi/src/main.rs`).

Modelling choices, stated once:
* Rust `HashMap<String, V>` becomes an association list with unique-key
  discipline (`Map.insert` replaces, `Map.adjust` mirrors `get_mut`,
  which is a no-op on a missing key).
* Rust `f64` amounts become `ℚ`: every operation of the source applies
  the same arithmetic on both sides of each claim, so exactness questions
  are settled in the rational model.
* `Uuid::new_v4()` and `chrono::Utc::now()` become explicit `String` and
  `Nat` parameters of each operation.
* The asynchronous handlers are modelled at quiescent points: each
  handler is a function from the shared `AppState` to a result and a new
  `AppState`; claims about interleavings use the event decomposition of
  `deposit` into its two lock-protected blocks (`DepositEvent`).
* The `ethers` contract call is an oracle parameter (`SendFundsOutcome`)
  fed through the error mapping of `contract.rs`.
-/

namespace OpenBank

/-- Association-list model of `HashMap<String, V>`. -/
abbrev Map (α : Type) : Type := List (String × α)

/-- `HashMap::get`: first entry with the given key. -/
def Map.find? {α : Type} (m : Map α) (k : String) : Option α :=
  match m with
  | [] => none
  | (k', v) :: rest => if k' = k then some v else Map.find? rest k

/-- `HashMap::insert`: replace the entry if present, else add it. -/
def Map.insert {α : Type} (m : Map α) (k : String) (v : α) : Map α :=
  match m with
  | [] => [(k, v)]
  | (k', v') :: rest => if k' = k then (k, v) :: rest else (k', v') :: Map.insert rest k v

/-- `HashMap::get_mut` followed by a mutation: modify the entry if present, no-op otherwise. -/
def Map.adjust {α : Type} (m : Map α) (k : String) (f : α → α) : Map α :=
  match m with
  | [] => []
  | (k', v) :: rest => if k' = k then (k', f v) :: rest else (k', v) :: Map.adjust rest k f

/-- `HashMap::contains_key`. -/
def Map.contains {α : Type} (m : Map α) (k : String) : Bool :=
  (Map.find? m k).isSome

/-- `values().any(p)` over the map. -/
def Map.anyValue {α : Type} (m : Map α) (p : α → Bool) : Bool :=
  m.any (fun q => p q.2)

/-- `types.rs`: `User`. -/
structure User where
  id : String
  email : String
  name : String
  wallet_address : Option String
  created_at : Nat
  accounts : List String
deriving DecidableEq, Repr

/-- `types.rs`: `AccountType`. -/
inductive AccountType where
  | Deposit
deriving DecidableEq, Repr

/-- `types.rs`: `Account`. -/
structure Account where
  id : String
  user_id : String
  account_type : AccountType
  balance : ℚ
  currency : String
  created_at : Nat
  is_active : Bool
deriving DecidableEq, Repr

/-- `types.rs`: `TransactionType`. -/
inductive TransactionType where
  | Deposit
  | Transfer
deriving DecidableEq, Repr

/-- `types.rs`: `Transaction`. -/
structure Transaction where
  id : String
  user_id : String
  account_id : String
  transaction_type : TransactionType
  amount : ℚ
  description : String
  timestamp : Nat
  balance_after : ℚ
deriving DecidableEq, Repr

/-- Error enum of `src/src/error.rs`, extended by the constructors the
`openbankapi` handlers build (`InvalidWalletAddress`, `NoWalletAddress`,
`SmartContractError`). -/
inductive OpenBankError where
  | UserNotFound (user_id : String)
  | AccountNotFound (account_id : String)
  | InvalidAmount (amount : ℚ)
  | UserAlreadyExists (email : String)
  | InvalidWalletAddress (address : String)
  | NoWalletAddress
  | SmartContractError (message : String)
deriving DecidableEq, Repr

/-- `types.rs`: `CreateUserRequest`. -/
structure CreateUserRequest where
  email : String
  name : String
  wallet_address : Option String
deriving DecidableEq, Repr

/-- `types.rs`: `CreateAccountRequest`. -/
structure CreateAccountRequest where
  currency : String
deriving DecidableEq, Repr

/-- `types.rs`: `DepositRequest`. -/
structure DepositRequest where
  amount : ℚ
  description : Option String
deriving DecidableEq, Repr

/-- `types.rs`: `WithdrawRequest`. -/
structure WithdrawRequest where
  user_id : String
  amount : ℚ
  description : Option String
deriving DecidableEq, Repr

/-- `main.rs` `AppState`; `contract_client : Bool` records whether the
`Option<Arc<ContractClient>>` is `Some`. -/
structure AppState where
  users : Map User
  accounts : Map Account
  transactions : Map (List Transaction)
  contract_client : Bool
deriving DecidableEq, Repr

/-- The empty state built by `AppState::new` (with either contract configuration). -/
def AppState.empty (b : Bool) : AppState :=
  { users := [], accounts := [], transactions := [], contract_client := b }

instance {ε α : Type} [DecidableEq ε] [DecidableEq α] : DecidableEq (Except ε α)
  | Except.error e, Except.error e' =>
    if h : e = e' then isTrue (by rw [h]) else isFalse (fun hh => by cases hh; exact h rfl)
  | Except.error _, Except.ok _ => isFalse (fun hh => by cases hh)
  | Except.ok _, Except.error _ => isFalse (fun hh => by cases hh)
  | Except.ok a, Except.ok a' =>
    if h : a = a' then isTrue (by rw [h]) else isFalse (fun hh => by cases hh; exact h rfl)

/-- Model of Rust `str::starts_with("0x")` (executable in the kernel). -/
def starts_with_0x (w : String) : Bool :=
  w.toList.take 2 == ['0', 'x']

/-- `main.rs` lines 76-84: basic Ethereum address validation in `create_user`. -/
def wallet_format_ok (w : String) : Bool :=
  starts_with_0x w && w.length == 42

/-- The `User` record built by `create_user` (lines 107-114). -/
def new_user (user_id : String) (now : Nat) (payload : CreateUserRequest) : User :=
  { id := user_id, email := payload.email, name := payload.name,
    wallet_address := payload.wallet_address, created_at := now, accounts := [] }

/-- `main.rs` `create_user`, final insertion block (lines 107-119). -/
def create_user_insert (s : AppState) (user_id : String) (now : Nat)
    (payload : CreateUserRequest) : Except OpenBankError User × AppState :=
  (Except.ok (new_user user_id now payload),
   { s with users := Map.insert s.users user_id (new_user user_id now payload) })

/-- `main.rs` `create_user`, duplicate-email then duplicate-wallet checks
(lines 86-105). -/
def create_user_checked (s : AppState) (user_id : String) (now : Nat)
    (payload : CreateUserRequest) : Except OpenBankError User × AppState :=
  if Map.anyValue s.users (fun u => u.email == payload.email) then
    (Except.error (OpenBankError.UserAlreadyExists payload.email), s)
  else
    match payload.wallet_address with
    | some w =>
      if Map.anyValue s.users (fun u => u.wallet_address == some w) then
        (Except.error (OpenBankError.InvalidWalletAddress w), s)
      else create_user_insert s user_id now payload
    | none => create_user_insert s user_id now payload

/-- `main.rs` `create_user` (lines 69-141).  The wallet-format validation
runs first; the trailing `get_user_balance` call only logs and has no
state effect, so it is omitted. -/
def create_user (s : AppState) (user_id : String) (now : Nat)
    (payload : CreateUserRequest) : Except OpenBankError User × AppState :=
  match payload.wallet_address with
  | some w =>
    if !(wallet_format_ok w) then
      (Except.error (OpenBankError.InvalidWalletAddress w), s)
    else create_user_checked s user_id now payload
  | none => create_user_checked s user_id now payload

/-- `main.rs` `create_account` (lines 162-217). -/
def create_account (s : AppState) (user_id : String) (account_id : String) (now : Nat)
    (payload : CreateAccountRequest) : Except OpenBankError Account × AppState :=
  if !(Map.contains s.users user_id) then
    (Except.error (OpenBankError.UserNotFound user_id), s)
  else
    let account : Account :=
      { id := account_id, user_id := user_id, account_type := AccountType.Deposit,
        balance := 0, currency := payload.currency, created_at := now, is_active := true }
    let s1 := { s with accounts := Map.insert s.accounts account_id account }
    let s2 := { s1 with users := (Map.adjust s1.users user_id
        (fun u => { u with accounts := u.accounts ++ [account_id] })) }
    let s3 := { s2 with transactions := Map.insert s2.transactions account_id [] }
    (Except.ok account, s3)

/-- The `Transaction` record built inside `deposit` (lines 270-279). -/
def deposit_txn (account : Account) (account_id : String) (transaction_id : String)
    (now : Nat) (payload : DepositRequest) : Transaction :=
  { id := transaction_id, user_id := account.user_id, account_id := account_id,
    transaction_type := TransactionType.Deposit, amount := payload.amount,
    description := payload.description.getD ("Deposit"),
    timestamp := now, balance_after := account.balance + payload.amount }

/-- `main.rs` `deposit` (lines 238-294): validate the amount, then the
lock-protected balance update, then the lock-protected history append
(which is silently skipped if the account has no transaction list). -/
def deposit (s : AppState) (account_id : String) (transaction_id : String) (now : Nat)
    (payload : DepositRequest) : Except OpenBankError Transaction × AppState :=
  if payload.amount ≤ 0 then
    (Except.error (OpenBankError.InvalidAmount payload.amount), s)
  else
    match Map.find? s.accounts account_id with
    | none => (Except.error (OpenBankError.AccountNotFound account_id), s)
    | some account =>
      let txn := deposit_txn account account_id transaction_id now payload
      let s1 := { s with accounts := (Map.adjust s.accounts account_id
          (fun a => { a with balance := a.balance + payload.amount })) }
      let s2 := { s1 with transactions := (Map.adjust s1.transactions account_id
          (fun l => l ++ [txn])) }
      (Except.ok txn, s2)

/-- `main.rs` `get_transactions` (lines 296-313). -/
def get_transactions (s : AppState) (account_id : String) :
    Except OpenBankError (List Transaction) :=
  match Map.find? s.transactions account_id with
  | some l => Except.ok l
  | none => Except.error (OpenBankError.AccountNotFound account_id)

/-- `main.rs` `get_account` (lines 219-236). -/
def get_account (s : AppState) (account_id : String) : Except OpenBankError Account :=
  match Map.find? s.accounts account_id with
  | some a => Except.ok a
  | none => Except.error (OpenBankError.AccountNotFound account_id)

/-- Classification of the `ethers` error returned by a failed `send`
(`contract.rs` line 112-116): the cause is invisible to the caller, only
its display string survives the `format!`. -/
inductive EthersSendError where
  | transportTimeout (detail : String)
  | rejected (detail : String)
  | rpcFailure (detail : String)
deriving DecidableEq, Repr

/-- The display string of the underlying `ethers` error (the `{}` of the
`format!`); it need not reveal the cause. -/
def EthersSendError.display : EthersSendError → String
  | .transportTimeout d => d
  | .rejected d => d
  | .rpcFailure d => d

/-- Oracle for the outcome of the external `sendUSDTToAddress` call. -/
inductive SendFundsOutcome where
  | delivered
  | methodError (msg : String)
  | sendError (e : EthersSendError)
deriving DecidableEq, Repr

/-- Models `Address::from_str` used by `contract.rs`: 40 hex digits with
an optional `0x` prefix. -/
def is_hex_digit (c : Char) : Bool :=
  ('0' ≤ c && c ≤ '9') || ('a' ≤ c && c ≤ 'f') || ('A' ≤ c && c ≤ 'F')

/-- Models `recipient.parse::<Address>()` success in `contract.rs`. -/
def address_parses (addr : String) : Bool :=
  let h := if starts_with_0x addr then addr.drop 2 else addr
  h.length == 40 && h.toList.all is_hex_digit

/-- `contract.rs` `send_usdt_to_address` (lines 95-119) with the call
outcome supplied by the oracle: a recipient that fails to parse yields
`InvalidWalletAddress`; every failure of the `method` construction or of
the `send` itself is mapped to `SmartContractError` carrying only a
formatted message. -/
def send_usdt_to_address (outcome : SendFundsOutcome) (recipient : String)
    (_amount : Nat) (_description : String) : Except OpenBankError Unit :=
  if !(address_parses recipient) then
    Except.error (OpenBankError.InvalidWalletAddress recipient)
  else
    match outcome with
    | .delivered => Except.ok ()
    | .methodError msg =>
      Except.error (OpenBankError.SmartContractError
        ("Failed to call sendUSDTToAddress: " ++ msg))
    | .sendError e =>
      Except.error (OpenBankError.SmartContractError
        ("Failed to send withdrawal transaction: " ++ e.display))

/-- `u64::MAX`. -/
def u64_max : Nat := 2 ^ 64 - 1

/-- `main.rs` line 373: `(payload.amount * 1_000_000.0) as u64`.  The Rust
`as` cast truncates toward zero and saturates at the bounds of `u64`;
in the rational model a positive value truncates to
`num.toNat / den` (natural division). -/
def to_minor_units (amount : ℚ) : Nat :=
  let scaled := amount * 1000000
  if scaled ≤ 0 then 0
  else min (scaled.num.toNat / scaled.den) u64_max

/-- The `format!` of the success payload of `withdraw_to_wallet` (line 390). -/
def success_message (amount : ℚ) (wallet : String) : String :=
  "Successfully sent " ++ toString amount ++ " USDT to " ++ wallet

/-- `main.rs` `withdraw_to_wallet` (lines 342-401): resolve the user, then
their wallet address, then validate the amount, then call the contract
client (if configured).  No branch writes to the store. -/
def withdraw_to_wallet (s : AppState) (outcome : SendFundsOutcome)
    (payload : WithdrawRequest) : Except OpenBankError String × AppState :=
  match Map.find? s.users payload.user_id with
  | none => (Except.error (OpenBankError.UserNotFound payload.user_id), s)
  | some user =>
    match user.wallet_address with
    | none => (Except.error OpenBankError.NoWalletAddress, s)
    | some wallet_address =>
      if payload.amount ≤ 0 then
        (Except.error (OpenBankError.InvalidAmount payload.amount), s)
      else
        let amount_usdt := to_minor_units payload.amount
        if s.contract_client then
          match send_usdt_to_address outcome wallet_address amount_usdt
              (payload.description.getD ("API withdrawal")) with
          | Except.error e => (Except.error e, s)
          | Except.ok _ => (Except.ok (success_message payload.amount wallet_address), s)
        else
          (Except.error (OpenBankError.SmartContractError
            ("Smart contract client not configured")), s)

/-- States reachable from `AppState::new` by the mutating handlers.  The
read-only handlers (`get_user`, `get_account`, `get_transactions`,
`get_user_accounts`, `health_check`) take no write lock and are omitted. -/
inductive Reachable : AppState → Prop where
  | init (b : Bool) : Reachable (AppState.empty b)
  | step_create_user (s : AppState) (uid : String) (now : Nat) (p : CreateUserRequest) :
      Reachable s → Reachable (create_user s uid now p).2
  | step_create_account (s : AppState) (uid aid : String) (now : Nat)
      (p : CreateAccountRequest) :
      Reachable s → Reachable (create_account s uid aid now p).2
  | step_deposit (s : AppState) (aid tid : String) (now : Nat) (p : DepositRequest) :
      Reachable s → Reachable (deposit s aid tid now p).2
  | step_withdraw (s : AppState) (o : SendFundsOutcome) (p : WithdrawRequest) :
      Reachable s → Reachable (withdraw_to_wallet s o p).2

/-- Sum of the `amount` fields of the deposit-kind transactions of a history. -/
def deposit_sum (l : List Transaction) : ℚ :=
  ((l.filter (fun t => t.transaction_type == TransactionType.Deposit)).map
    (fun t => t.amount)).sum

/-- The balance invariant of §3 of the specification, together with the
existence of the transaction list. -/
def BalanceInvariant (s : AppState) : Prop :=
  ∀ aid acc, Map.find? s.accounts aid = some acc →
    ∃ l, Map.find? s.transactions aid = some l ∧ acc.balance = deposit_sum l

theorem Map.find?_insert {α : Type} (m : Map α) (k : String) (v : α) (k' : String) :
    Map.find? (Map.insert m k v) k' = if k = k' then some v else Map.find? m k' := by
  induction m with
  | nil => simp [Map.insert, Map.find?]
  | cons hd tl ih =>
    obtain ⟨k₀, v₀⟩ := hd
    by_cases h0 : k₀ = k
    · subst h0
      by_cases h1 : k₀ = k'
      · subst h1
        simp [Map.insert, Map.find?]
      · simp [Map.insert, Map.find?, h1]
    · by_cases h1 : k₀ = k'
      · subst h1
        have : ¬ k = k₀ := fun h => h0 h.symm
        simp [Map.insert, Map.find?, h0, this]
      · simp [Map.insert, Map.find?, h0, h1, ih]

theorem Map.find?_adjust {α : Type} (m : Map α) (k : String) (f : α → α) (k' : String) :
    Map.find? (Map.adjust m k f) k' =
      if k = k' then (Map.find? m k').map f else Map.find? m k' := by
  induction m with
  | nil => simp [Map.adjust, Map.find?]
  | cons hd tl ih =>
    obtain ⟨k₀, v₀⟩ := hd
    by_cases h0 : k₀ = k
    · subst h0
      by_cases h1 : k₀ = k'
      · subst h1
        simp [Map.adjust, Map.find?]
      · simp [Map.adjust, Map.find?, h1]
    · by_cases h1 : k₀ = k'
      · subst h1
        have : ¬ k = k₀ := fun h => h0 h.symm
        simp [Map.adjust, Map.find?, h0, this]
      · simp [Map.adjust, Map.find?, h0, h1, ih]

theorem Map.adjust_comm {α : Type} (m : Map α) (k₁ k₂ : String) (f g : α → α)
    (h : k₁ ≠ k₂) :
    Map.adjust (Map.adjust m k₁ f) k₂ g = Map.adjust (Map.adjust m k₂ g) k₁ f := by
  induction m with
  | nil => simp [Map.adjust]
  | cons hd tl ih =>
    obtain ⟨k₀, v₀⟩ := hd
    by_cases h1 : k₀ = k₁
    · subst h1
      have h2 : ¬ k₀ = k₂ := fun hh => h (hh ▸ rfl)
      simp [Map.adjust, h2]
    · by_cases h2 : k₀ = k₂
      · subst h2
        simp [Map.adjust, h1]
      · simp [Map.adjust, h1, h2, ih]

theorem deposit_sum_append_deposit (l : List Transaction) (t : Transaction)
    (h : t.transaction_type = TransactionType.Deposit) :
    deposit_sum (l ++ [t]) = deposit_sum l + t.amount := by
  simp [deposit_sum, List.filter_append, h]

/-- `create_user` touches only the `users` collection. -/
theorem create_user_accounts_eq (s : AppState) (uid : String) (now : Nat)
    (p : CreateUserRequest) :
    ((create_user s uid now p).2).accounts = s.accounts ∧
    ((create_user s uid now p).2).transactions = s.transactions := by
  refine ⟨?_, ?_⟩ <;>
    (unfold create_user create_user_checked create_user_insert
     cases p.wallet_address <;> dsimp only <;> (repeat' split) <;> rfl)

/-- `withdraw_to_wallet` returns the state unchanged on every path. -/
theorem withdraw_state_eq (s : AppState) (o : SendFundsOutcome) (p : WithdrawRequest) :
    (withdraw_to_wallet s o p).2 = s := by
  unfold withdraw_to_wallet
  repeat' split
  all_goals dsimp only
  all_goals repeat' split
  all_goals rfl

/-- The `Account` record built by `create_account`. -/
def new_account (uid aid : String) (now : Nat) (p : CreateAccountRequest) : Account :=
  { id := aid, user_id := uid, account_type := AccountType.Deposit,
    balance := 0, currency := p.currency, created_at := now, is_active := true }

theorem create_account_of_contains (s : AppState) (uid aid : String) (now : Nat)
    (p : CreateAccountRequest) (h : Map.contains s.users uid = true) :
    create_account s uid aid now p =
      (Except.ok (new_account uid aid now p),
       { s with
         accounts := (Map.insert s.accounts aid (new_account uid aid now p)),
         users := (Map.adjust s.users uid (fun u => { u with accounts := u.accounts ++ [aid] })),
         transactions := (Map.insert s.transactions aid []) }) := by
  unfold create_account new_account
  simp [h]

theorem create_account_of_not_contains (s : AppState) (uid aid : String) (now : Nat)
    (p : CreateAccountRequest) (h : Map.contains s.users uid = false) :
    create_account s uid aid now p = (Except.error (OpenBankError.UserNotFound uid), s) := by
  unfold create_account
  simp [h]

theorem deposit_of_nonpos (s : AppState) (aid tid : String) (now : Nat)
    (p : DepositRequest) (h : p.amount ≤ 0) :
    deposit s aid tid now p = (Except.error (OpenBankError.InvalidAmount p.amount), s) := by
  unfold deposit
  simp [h]

theorem deposit_of_not_found (s : AppState) (aid tid : String) (now : Nat)
    (p : DepositRequest) (hpos : ¬ p.amount ≤ 0)
    (h : Map.find? s.accounts aid = none) :
    deposit s aid tid now p = (Except.error (OpenBankError.AccountNotFound aid), s) := by
  unfold deposit
  simp [hpos, h]

theorem deposit_of_found (s : AppState) (aid tid : String) (now : Nat)
    (p : DepositRequest) (acc : Account) (hpos : ¬ p.amount ≤ 0)
    (h : Map.find? s.accounts aid = some acc) :
    deposit s aid tid now p =
      (Except.ok (deposit_txn acc aid tid now p),
       { s with
         accounts := (Map.adjust s.accounts aid
           (fun a => { a with balance := a.balance + p.amount })),
         transactions := (Map.adjust s.transactions aid
           (fun l => l ++ [deposit_txn acc aid tid now p])) }) := by
  unfold deposit
  simp [hpos, h]

/-- Every reachable state satisfies the balance invariant. -/
theorem reachable_balance_invariant {s : AppState} (h : Reachable s) : BalanceInvariant s := by
  induction h with
  | init b =>
    intro aid acc hacc
    simp [AppState.empty, Map.find?] at hacc
  | step_create_user s uid now p _ ih =>
    intro aid acc hacc
    have heq := create_user_accounts_eq s uid now p
    rw [heq.1] at hacc
    rw [heq.2]
    exact ih aid acc hacc
  | step_create_account s uid aid' now p _ ih =>
    intro aid acc hacc
    by_cases hc : Map.contains s.users uid
    · rw [create_account_of_contains s uid aid' now p hc] at hacc ⊢
      dsimp only at hacc ⊢
      rw [Map.find?_insert] at hacc
      rw [Map.find?_insert]
      by_cases hk : aid' = aid
      · simp only [hk, if_pos rfl] at hacc ⊢
        refine ⟨[], rfl, ?_⟩
        cases hacc
        simp [new_account, deposit_sum]
      · simp only [if_neg hk] at hacc ⊢
        exact ih aid acc hacc
    · rw [create_account_of_not_contains s uid aid' now p (by simpa using hc)] at hacc ⊢
      exact ih aid acc hacc
  | step_deposit s aid' tid now p _ ih =>
    intro aid acc hacc
    by_cases hle : p.amount ≤ 0
    · rw [deposit_of_nonpos s aid' tid now p hle] at hacc ⊢
      exact ih aid acc hacc
    · cases hfind : Map.find? s.accounts aid' with
      | none =>
        rw [deposit_of_not_found s aid' tid now p hle hfind] at hacc ⊢
        exact ih aid acc hacc
      | some acc₀ =>
        rw [deposit_of_found s aid' tid now p acc₀ hle hfind] at hacc ⊢
        dsimp only at hacc ⊢
        rw [Map.find?_adjust] at hacc
        rw [Map.find?_adjust]
        by_cases hk : aid' = aid
        · subst hk
          simp only [if_pos rfl, hfind, Option.map_some] at hacc
          obtain ⟨l, hl, hbal⟩ := ih aid' acc₀ hfind
          cases hacc
          refine ⟨l ++ [deposit_txn acc₀ aid' tid now p], ?_, ?_⟩
          · simp [if_pos rfl, hl]
          · rw [deposit_sum_append_deposit l _ rfl]
            simp [deposit_txn, hbal]
        · simp only [if_neg hk] at hacc ⊢
          exact ih aid acc hacc
  | step_withdraw s o p _ ih =>
    intro aid acc hacc
    rw [withdraw_state_eq] at hacc ⊢
    exact ih aid acc hacc

/-! Concrete run of the §8 scenario: create `alice@example.com`, create a
`USD` account, deposit `100` with description `init`, deposit `50`. -/

/-- Registration request of the scenario. -/
def alice_request : CreateUserRequest :=
  { email := "alice@example.com", name := "Alice", wallet_address := none }

/-- State after `create_user`. -/
def scen_state1 : AppState := (create_user (AppState.empty false) "user-1" 0 alice_request).2

/-- State after `create_account`. -/
def scen_state2 : AppState := (create_account scen_state1 "user-1" "acct-1" 1
  { currency := "USD" }).2

/-- Result of the first deposit. -/
def scen_dep1 : Except OpenBankError Transaction × AppState :=
  deposit scen_state2 "acct-1" "txn-1" 2 { amount := 100, description := some "init" }

/-- State after the first deposit. -/
def scen_state3 : AppState := scen_dep1.2

/-- Result of the second deposit. -/
def scen_dep2 : Except OpenBankError Transaction × AppState :=
  deposit scen_state3 "acct-1" "txn-2" 3 { amount := 50, description := none }

/-- State after the second deposit. -/
def scen_state4 : AppState := scen_dep2.2

/-- Alice's user record once her account exists. -/
def alice_user : User :=
  { id := "user-1", email := "alice@example.com", name := "Alice",
    wallet_address := none, created_at := 0, accounts := ["acct-1"] }

/-- The transaction of the first deposit. -/
def scen_txn1 : Transaction :=
  { id := "txn-1", user_id := "user-1", account_id := "acct-1",
    transaction_type := TransactionType.Deposit, amount := 100,
    description := "init", timestamp := 2, balance_after := 100 }

/-- The transaction of the second deposit. -/
def scen_txn2 : Transaction :=
  { id := "txn-2", user_id := "user-1", account_id := "acct-1",
    transaction_type := TransactionType.Deposit, amount := 50,
    description := "Deposit", timestamp := 3, balance_after := 150 }

/-- The account before any deposit. -/
def scen_account2 : Account :=
  { id := "acct-1", user_id := "user-1", account_type := AccountType.Deposit,
    balance := 0, currency := "USD", created_at := 1, is_active := true }

/-- The account after the first deposit. -/
def scen_account3 : Account := { scen_account2 with balance := 100 }

/-- The account after the second deposit. -/
def scen_account4 : Account := { scen_account2 with balance := 150 }

theorem scen_state2_eval :
    scen_state2 =
      { users := [("user-1", alice_user)],
        accounts := [("acct-1", scen_account2)],
        transactions := [("acct-1", [])], contract_client := false } := by
  norm_num [scen_state2, scen_state1, AppState.empty, alice_request, create_user,
    create_user_checked, create_user_insert, new_user, create_account, Map.insert,
    Map.adjust, Map.find?, Map.contains, Map.anyValue, alice_user, scen_account2]

theorem scen_dep1_eval :
    scen_dep1 =
      (Except.ok scen_txn1,
        { users := [("user-1", alice_user)], accounts := [("acct-1", scen_account3)],
          transactions := [("acct-1", [scen_txn1])], contract_client := false }) := by
  rw [scen_dep1, scen_state2_eval]
  norm_num [deposit, deposit_txn, Map.insert, Map.adjust, Map.find?, scen_txn1,
    scen_account2, scen_account3]

theorem scen_dep2_eval :
    scen_dep2 =
      (Except.ok scen_txn2,
        { users := [("user-1", alice_user)], accounts := [("acct-1", scen_account4)],
          transactions := [("acct-1", [scen_txn1, scen_txn2])],
          contract_client := false }) := by
  rw [scen_dep2, scen_state3, scen_dep1_eval]
  norm_num [deposit, deposit_txn, Map.insert, Map.adjust, Map.find?, scen_txn2,
    scen_account2, scen_account3, scen_account4]

/-- C1: for every account in every reachable state (quiescent point), the
account's `balance` field equals the sum of the `amount` fields of the
deposit-kind transactions recorded against that account. -/
theorem c1_balance_eq_deposit_sum (s : AppState) (h : Reachable s) (aid : String)
    (acc : Account) (hacc : Map.find? s.accounts aid = some acc) :
    ∃ l, Map.find? s.transactions aid = some l ∧ acc.balance = deposit_sum l :=
  reachable_balance_invariant h aid acc hacc

/-- Witness for `c1_balance_eq_deposit_sum`: the concrete reachable state
after one deposit of `100`. -/
theorem c1_balance_eq_deposit_sum_witness :
    ∃ l, Map.find? scen_state3.transactions "acct-1" = some l ∧
      scen_account3.balance = deposit_sum l := by
  have hreach : Reachable scen_state3 :=
    Reachable.step_deposit _ _ _ _ _
      (Reachable.step_create_account _ _ _ _ _
        (Reachable.step_create_user _ _ _ _ (Reachable.init false)))
  refine c1_balance_eq_deposit_sum scen_state3 hreach "acct-1" scen_account3 ?_
  rw [scen_state3, scen_dep1_eval]
  simp [Map.find?]

/-- C2: a withdrawal request never mutates the ledger store — whether the
external `SendFunds` call succeeds or fails, the users, accounts and
transactions collections are identical before and after. -/
theorem c2_withdraw_frame (s : AppState) (o : SendFundsOutcome) (p : WithdrawRequest) :
    ((withdraw_to_wallet s o p).2).users = s.users ∧
    ((withdraw_to_wallet s o p).2).accounts = s.accounts ∧
    ((withdraw_to_wallet s o p).2).transactions = s.transactions := by
  rw [withdraw_state_eq]
  exact ⟨rfl, rfl, rfl⟩

/-- C10: in every reachable state every account id present in the accounts
map also keys the transactions map, so the branch of `deposit` that would
silently skip the history append is unreachable: a valid deposit on such an
account always appends its transaction. -/
theorem c10_transaction_list_always_present (s : AppState) (h : Reachable s)
    (aid : String) (acc : Account) (hacc : Map.find? s.accounts aid = some acc)
    (tid : String) (now : Nat) (p : DepositRequest) (hpos : 0 < p.amount) :
    ∃ l txn, Map.find? s.transactions aid = some l ∧
      (deposit s aid tid now p).1 = Except.ok txn ∧
      Map.find? ((deposit s aid tid now p).2).transactions aid = some (l ++ [txn]) := by
  obtain ⟨l, hl, _⟩ := reachable_balance_invariant h aid acc hacc
  have hpos' : ¬ p.amount ≤ 0 := not_le.mpr hpos
  refine ⟨l, deposit_txn acc aid tid now p, hl, ?_, ?_⟩
  · rw [deposit_of_found s aid tid now p acc hpos' hacc]
  · rw [deposit_of_found s aid tid now p acc hpos' hacc]
    dsimp only
    rw [Map.find?_adjust]
    simp [hl]

/-- Witness for `c10_transaction_list_always_present`: depositing into the
freshly created scenario account appends to its (empty) history. -/
theorem c10_transaction_list_always_present_witness :
    ∃ l txn, Map.find? scen_state2.transactions "acct-1" = some l ∧
      (deposit scen_state2 "acct-1" "txn-1" 2
        { amount := 100, description := some "init" }).1 = Except.ok txn ∧
      Map.find? ((deposit scen_state2 "acct-1" "txn-1" 2
        { amount := 100, description := some "init" }).2).transactions "acct-1" =
        some (l ++ [txn]) := by
  have hreach : Reachable scen_state2 :=
    Reachable.step_create_account _ _ _ _ _
      (Reachable.step_create_user _ _ _ _ (Reachable.init false))
  refine c10_transaction_list_always_present scen_state2 hreach "acct-1" scen_account2
    ?_ "txn-1" 2 { amount := 100, description := some "init" } (by norm_num)
  rw [scen_state2_eval]
  simp [Map.find?]

/-- C4: every successful deposit returns (and, where the history list
exists, appends) a transaction whose `balance_after` equals the account
balance immediately after the deposit; in the §8 scenario the first
transaction has `amount = 100` and `balance_after = 100`, the second has
`balance_after = 150`, and `get_transactions` returns both in application
order. -/
theorem c4_balance_after_snapshot (s : AppState) (aid tid : String) (now : Nat)
    (p : DepositRequest) (txn : Transaction) (s' : AppState)
    (hsucc : deposit s aid tid now p = (Except.ok txn, s')) :
    ((∃ acc', Map.find? s'.accounts aid = some acc' ∧ acc'.balance = txn.balance_after) ∧
     (∀ l, Map.find? s.transactions aid = some l →
        Map.find? s'.transactions aid = some (l ++ [txn]))) ∧
    (scen_dep1.1 = Except.ok scen_txn1 ∧ scen_txn1.amount = 100 ∧
     scen_txn1.balance_after = 100 ∧
     scen_dep2.1 = Except.ok scen_txn2 ∧ scen_txn2.amount = 50 ∧
     scen_txn2.balance_after = 150 ∧
     get_transactions scen_state4 "acct-1" = Except.ok [scen_txn1, scen_txn2]) := by
  constructor
  · by_cases hle : p.amount ≤ 0
    · rw [deposit_of_nonpos s aid tid now p hle] at hsucc
      simp at hsucc
    · cases hfind : Map.find? s.accounts aid with
      | none =>
        rw [deposit_of_not_found s aid tid now p hle hfind] at hsucc
        simp at hsucc
      | some acc =>
        rw [deposit_of_found s aid tid now p acc hle hfind] at hsucc
        obtain ⟨h1, h2⟩ := Prod.mk.injEq .. ▸ hsucc
        injection h1 with h1
        subst h1
        subst h2
        constructor
        · refine ⟨{ acc with balance := acc.balance + p.amount }, ?_, ?_⟩
          · dsimp only
            rw [Map.find?_adjust]
            simp [hfind]
          · simp [deposit_txn]
        · intro l hl
          dsimp only
          rw [Map.find?_adjust]
          simp [hl]
  · refine ⟨?_, rfl, rfl, ?_, rfl, rfl, ?_⟩
    · rw [scen_dep1_eval]
    · rw [scen_dep2_eval]
    · rw [scen_state4, scen_dep2_eval]
      simp [get_transactions, Map.find?]

/-- Witness for `c4_balance_after_snapshot`: the first scenario deposit. -/
theorem c4_balance_after_snapshot_witness :
    ((∃ acc', Map.find? scen_state3.accounts "acct-1" = some acc' ∧
        acc'.balance = scen_txn1.balance_after) ∧
     (∀ l, Map.find? scen_state2.transactions "acct-1" = some l →
        Map.find? scen_state3.transactions "acct-1" = some (l ++ [scen_txn1]))) ∧
    (scen_dep1.1 = Except.ok scen_txn1 ∧ scen_txn1.amount = 100 ∧
     scen_txn1.balance_after = 100 ∧
     scen_dep2.1 = Except.ok scen_txn2 ∧ scen_txn2.amount = 50 ∧
     scen_txn2.balance_after = 150 ∧
     get_transactions scen_state4 "acct-1" = Except.ok [scen_txn1, scen_txn2]) :=
  c4_balance_after_snapshot scen_state2 "acct-1" "txn-1" 2
    { amount := 100, description := some "init" } scen_txn1 scen_state3
    (by
      show scen_dep1 = (Except.ok scen_txn1, scen_dep1.2)
      rw [scen_dep1_eval])

/-- C5: validation failures are detected before any mutation and are
side-effect-free: a non-positive deposit amount yields `InvalidAmount`
with the store unchanged; with a positive amount, an unknown account
yields `AccountNotFound` with the store unchanged; `create_account` for
an unknown user yields `UserNotFound` with the store unchanged. -/
theorem c5_validation_side_effect_free (s : AppState) (aid tid : String) (now : Nat)
    (p : DepositRequest) (uid aid2 : String) (now2 : Nat) (q : CreateAccountRequest) :
    (p.amount ≤ 0 →
      deposit s aid tid now p =
        (Except.error (OpenBankError.InvalidAmount p.amount), s)) ∧
    (0 < p.amount → Map.find? s.accounts aid = none →
      deposit s aid tid now p =
        (Except.error (OpenBankError.AccountNotFound aid), s)) ∧
    (Map.contains s.users uid = false →
      create_account s uid aid2 now2 q =
        (Except.error (OpenBankError.UserNotFound uid), s)) :=
  ⟨fun h => deposit_of_nonpos s aid tid now p h,
   fun h1 h2 => deposit_of_not_found s aid tid now p (not_le.mpr h1) h2,
   fun h => create_account_of_not_contains s uid aid2 now2 q h⟩

/-- Witness for `c5_validation_side_effect_free`: a rejected deposit of
`-5`, a deposit to an unknown account, and an account creation for an
unknown user, all on the scenario state, each leaving it unchanged. -/
theorem c5_validation_side_effect_free_witness :
    deposit scen_state2 "acct-1" "t-bad" 9 { amount := -5, description := none } =
      (Except.error (OpenBankError.InvalidAmount (-5)), scen_state2) ∧
    deposit scen_state2 "ghost" "t-bad" 9 { amount := 5, description := none } =
      (Except.error (OpenBankError.AccountNotFound "ghost"), scen_state2) ∧
    create_account scen_state2 "ghost" "acct-2" 9 { currency := "USD" } =
      (Except.error (OpenBankError.UserNotFound "ghost"), scen_state2) := by
  refine ⟨(c5_validation_side_effect_free scen_state2 "acct-1" "t-bad" 9
      { amount := -5, description := none } "ghost" "acct-2" 9 { currency := "USD" }).1
      (by norm_num),
    (c5_validation_side_effect_free scen_state2 "ghost" "t-bad" 9
      { amount := 5, description := none } "ghost" "acct-2" 9 { currency := "USD" }).2.1
      (by norm_num) ?_,
    (c5_validation_side_effect_free scen_state2 "ghost" "t-bad" 9
      { amount := 5, description := none } "ghost" "acct-2" 9 { currency := "USD" }).2.2 ?_⟩
  · rw [scen_state2_eval]
    simp [Map.find?]
  · rw [scen_state2_eval]
    simp [Map.contains, Map.find?]

/-! States for the withdrawal-path claims: a user without a wallet address
(`scen_state1`) and a user with a well-formed wallet address
(`wallet_state`, contract client configured). -/

/-- A well-formed Ethereum address (42 characters, `0x` + 40 hex digits). -/
def carol_wallet : String := "0x00000000000000000000000000000000000000ab"

/-- Registration request of a user carrying a wallet address. -/
def carol_request : CreateUserRequest :=
  { email := "carol@example.com", name := "Carol", wallet_address := some carol_wallet }

/-- State holding only Carol, with the contract client configured. -/
def wallet_state : AppState := (create_user (AppState.empty true) "carol-1" 0 carol_request).2

/-- Carol's user record. -/
def carol_user : User :=
  { id := "carol-1", email := "carol@example.com", name := "Carol",
    wallet_address := some carol_wallet, created_at := 0, accounts := [] }

/-- Alice's user record before any account exists. -/
def alice_user0 : User :=
  { id := "user-1", email := "alice@example.com", name := "Alice",
    wallet_address := none, created_at := 0, accounts := [] }

theorem wallet_state_eval :
    wallet_state =
      { users := [("carol-1", carol_user)], accounts := [],
        transactions := [], contract_client := true } := by
  have hfmt : wallet_format_ok carol_wallet = true := by decide
  norm_num [wallet_state, AppState.empty, carol_request, create_user, hfmt,
    create_user_checked, create_user_insert, new_user, Map.anyValue, Map.insert,
    carol_user]

theorem scen_state1_eval :
    scen_state1 =
      { users := [("user-1", alice_user0)], accounts := [],
        transactions := [], contract_client := false } := by
  norm_num [scen_state1, AppState.empty, alice_request, create_user,
    create_user_checked, create_user_insert, new_user, Map.anyValue, Map.insert,
    alice_user0]

/-- C6 counterexample: with no users at all, a withdrawal request with
amount `-1` fails with `UserNotFound`, not `InvalidAmount` — the code
resolves the user before it validates the amount, contradicting the
claimed amount-first order. -/
theorem c6_counterexample :
    (withdraw_to_wallet (AppState.empty true) SendFundsOutcome.delivered
      { user_id := "nobody", amount := -1, description := none }).1 =
      Except.error (OpenBankError.UserNotFound "nobody") ∧
    (withdraw_to_wallet (AppState.empty true) SendFundsOutcome.delivered
      { user_id := "nobody", amount := -1, description := none }).1 ≠
      Except.error (OpenBankError.InvalidAmount (-1)) := by
  constructor
  · rfl
  · intro h
    rw [show (withdraw_to_wallet (AppState.empty true) SendFundsOutcome.delivered
      { user_id := "nobody", amount := -1, description := none }).1 =
      Except.error (OpenBankError.UserNotFound "nobody") from rfl] at h
    exact absurd h (by simp)

/-- C6 amended: withdrawal validation resolves the user first, then the
wallet address, then the amount — an unknown `user_id` yields
`UserNotFound` regardless of the amount; an existing user without a
wallet address yields `NoWalletAddress` with the store unchanged,
regardless of the amount; for an existing user with a wallet address a
non-positive amount yields `InvalidAmount` with the store unchanged. -/
theorem c6_validation_order (s : AppState) (o : SendFundsOutcome) (p : WithdrawRequest) :
    (Map.find? s.users p.user_id = none →
      withdraw_to_wallet s o p =
        (Except.error (OpenBankError.UserNotFound p.user_id), s)) ∧
    (∀ u, Map.find? s.users p.user_id = some u → u.wallet_address = none →
      withdraw_to_wallet s o p = (Except.error OpenBankError.NoWalletAddress, s)) ∧
    (∀ u w, Map.find? s.users p.user_id = some u → u.wallet_address = some w →
      p.amount ≤ 0 →
      withdraw_to_wallet s o p =
        (Except.error (OpenBankError.InvalidAmount p.amount), s)) := by
  refine ⟨?_, ?_, ?_⟩
  · intro h
    unfold withdraw_to_wallet
    rw [h]
  · intro u hu hw
    unfold withdraw_to_wallet
    rw [hu]
    dsimp only
    rw [hw]
  · intro u w hu hw hle
    unfold withdraw_to_wallet
    rw [hu]
    dsimp only
    rw [hw]
    simp [hle]

/-- Witness for `c6_validation_order`: the three validation outcomes at
concrete states. -/
theorem c6_validation_order_witness :
    withdraw_to_wallet (AppState.empty true) SendFundsOutcome.delivered
      { user_id := "nobody", amount := 5, description := none } =
      (Except.error (OpenBankError.UserNotFound "nobody"), AppState.empty true) ∧
    withdraw_to_wallet scen_state1 SendFundsOutcome.delivered
      { user_id := "user-1", amount := 5, description := none } =
      (Except.error OpenBankError.NoWalletAddress, scen_state1) ∧
    withdraw_to_wallet wallet_state SendFundsOutcome.delivered
      { user_id := "carol-1", amount := -3, description := none } =
      (Except.error (OpenBankError.InvalidAmount (-3)), wallet_state) := by
  refine ⟨(c6_validation_order (AppState.empty true) SendFundsOutcome.delivered
      { user_id := "nobody", amount := 5, description := none }).1 rfl,
    (c6_validation_order scen_state1 SendFundsOutcome.delivered
      { user_id := "user-1", amount := 5, description := none }).2.1 alice_user0 ?_ rfl,
    (c6_validation_order wallet_state SendFundsOutcome.delivered
      { user_id := "carol-1", amount := -3, description := none }).2.2 carol_user
      carol_wallet ?_ rfl (by norm_num)⟩
  · rw [scen_state1_eval]
    simp [Map.find?]
  · rw [wallet_state_eval]
    simp [Map.find?]

/-! Uniqueness of emails and wallet addresses across users (claim C7). -/

/-- Emails are pairwise distinct across users. -/
def EmailUnique (s : AppState) : Prop :=
  s.users.Pairwise (fun a b => a.2.email ≠ b.2.email)

/-- Wallet addresses, when present, are pairwise distinct across users. -/
def WalletUnique (s : AppState) : Prop :=
  s.users.Pairwise (fun a b => ∀ w, a.2.wallet_address = some w →
    b.2.wallet_address ≠ some w)

theorem Map.mem_insert {α : Type} {m : Map α} {k : String} {v : α} {e : String × α}
    (h : e ∈ Map.insert m k v) : e = (k, v) ∨ e ∈ m := by
  induction m with
  | nil => simpa [Map.insert] using h
  | cons hd tl ih =>
    obtain ⟨k₀, v₀⟩ := hd
    simp only [Map.insert] at h
    by_cases h0 : k₀ = k
    · rw [if_pos h0] at h
      rcases List.mem_cons.mp h with h | h
      · exact Or.inl h
      · exact Or.inr (List.mem_cons_of_mem _ h)
    · rw [if_neg h0] at h
      rcases List.mem_cons.mp h with h | h
      · exact Or.inr (h ▸ List.mem_cons_self _ _)
      · rcases ih h with h' | h'
        · exact Or.inl h'
        · exact Or.inr (List.mem_cons_of_mem _ h')

theorem Map.pairwise_insert {α : Type} {R : String × α → String × α → Prop}
    {m : Map α} {k : String} {v : α} (hm : m.Pairwise R)
    (hv : ∀ e ∈ m, R (k, v) e ∧ R e (k, v)) :
    (Map.insert m k v).Pairwise R := by
  induction m with
  | nil => simp [Map.insert]
  | cons hd tl ih =>
    obtain ⟨k₀, v₀⟩ := hd
    rw [List.pairwise_cons] at hm
    simp only [Map.insert]
    by_cases h0 : k₀ = k
    · rw [if_pos h0]
      rw [List.pairwise_cons]
      refine ⟨fun e he => (hv e (List.mem_cons_of_mem _ he)).1, hm.2⟩
    · rw [if_neg h0]
      rw [List.pairwise_cons]
      refine ⟨?_, ih hm.2 (fun e he => hv e (List.mem_cons_of_mem _ he))⟩
      intro e he
      rcases Map.mem_insert he with h' | h'
      · exact h' ▸ (hv (k₀, v₀) (List.mem_cons_self _ _)).2
      · exact hm.1 e h'

theorem Map.anyValue_eq_false {α : Type} {m : Map α} {p : α → Bool}
    (h : Map.anyValue m p = false) : ∀ e ∈ m, p e.2 = false := by
  intro e he
  simp only [Map.anyValue, List.any_eq_false] at h
  simpa using h e he

/-- Case analysis on the state effect of `create_user`: either the state is
unchanged (a validation failure) or exactly the new user record was
inserted, in which case the duplicate checks had passed. -/
theorem create_user_cases (s : AppState) (uid : String) (now : Nat)
    (p : CreateUserRequest) :
    (create_user s uid now p).2 = s ∨
    ((create_user s uid now p).2 =
        { s with users := (Map.insert s.users uid (new_user uid now p)) } ∧
      Map.anyValue s.users (fun u => u.email == p.email) = false ∧
      (p.wallet_address = none ∨ ∃ w, p.wallet_address = some w ∧
        Map.anyValue s.users (fun u => u.wallet_address == some w) = false)) := by
  unfold create_user create_user_checked create_user_insert
  cases hw : p.wallet_address with
  | none =>
    dsimp only
    by_cases he : Map.anyValue s.users (fun u => u.email == p.email)
    · simp [he]
    · simp only [Bool.not_eq_true] at he
      simp [he, hw]
  | some w =>
    dsimp only
    by_cases hf : wallet_format_ok w
    · by_cases he : Map.anyValue s.users (fun u => u.email == p.email)
      · simp [hf, he]
      · simp only [Bool.not_eq_true] at he
        by_cases hd : Map.anyValue s.users (fun u => u.wallet_address == some w)
        · simp [hf, he, hd]
        · simp only [Bool.not_eq_true] at hd
          simp [hf, he, hd, hw]
    · simp only [Bool.not_eq_true] at hf
      simp [hf]

/-- C7 counterexample: in a state where the email `carol@example.com` is
already present, `create_user` with that same email and a malformed
wallet address fails with `InvalidWalletAddress`, not with the
duplicate-email error the claim requires — wallet-format validation runs
before the duplicate-email check. -/
theorem c7_counterexample :
    Map.anyValue wallet_state.users (fun u => u.email == "carol@example.com") = true ∧
    (create_user wallet_state "user-x" 1
      { email := "carol@example.com", name := "X", wallet_address := some "xyz" }).1 =
      Except.error (OpenBankError.InvalidWalletAddress "xyz") ∧
    (create_user wallet_state "user-x" 1
      { email := "carol@example.com", name := "X", wallet_address := some "xyz" }).1 ≠
      Except.error (OpenBankError.UserAlreadyExists "carol@example.com") := by
  rw [wallet_state_eval]
  refine ⟨by decide, by decide, by decide⟩

/-- C7 amended: `create_user` validates the wallet format first, failing
with `InvalidWalletAddress` even when the email is already present; with
a well-formed (or absent) wallet it fails with `UserAlreadyExists` (the
spec's `DuplicateEmail`) on a duplicate email, and then with
`InvalidWalletAddress` (the spec's `DuplicateWallet`, sharing the
constructor of the format failure) on a duplicate wallet address; no
`User` is inserted in any failure case; on success exactly the new user
is inserted, with an empty accounts list; email uniqueness and
wallet-address uniqueness are preserved by every outcome. -/
theorem c7_create_user_unique (s : AppState) (uid : String) (now : Nat)
    (p : CreateUserRequest) :
    (∀ w, p.wallet_address = some w → wallet_format_ok w = false →
      create_user s uid now p =
        (Except.error (OpenBankError.InvalidWalletAddress w), s)) ∧
    ((p.wallet_address = none ∨
        (∃ w, p.wallet_address = some w ∧ wallet_format_ok w = true)) →
      Map.anyValue s.users (fun u => u.email == p.email) = true →
      create_user s uid now p =
        (Except.error (OpenBankError.UserAlreadyExists p.email), s)) ∧
    (∀ w, p.wallet_address = some w → wallet_format_ok w = true →
      Map.anyValue s.users (fun u => u.email == p.email) = false →
      Map.anyValue s.users (fun u => u.wallet_address == some w) = true →
      create_user s uid now p =
        (Except.error (OpenBankError.InvalidWalletAddress w), s)) ∧
    ((p.wallet_address = none ∨
        (∃ w, p.wallet_address = some w ∧ wallet_format_ok w = true ∧
          Map.anyValue s.users (fun u => u.wallet_address == some w) = false)) →
      Map.anyValue s.users (fun u => u.email == p.email) = false →
      create_user s uid now p =
        (Except.ok (new_user uid now p),
         { s with users := (Map.insert s.users uid (new_user uid now p)) }) ∧
      (new_user uid now p).accounts = []) ∧
    (EmailUnique s → EmailUnique (create_user s uid now p).2) ∧
    (WalletUnique s → WalletUnique (create_user s uid now p).2) := by
  refine ⟨?_, ?_, ?_, ?_, ?_, ?_⟩
  · intro w hw hf
    unfold create_user
    rw [hw]
    simp [hf]
  · intro hwf he
    unfold create_user create_user_checked
    rcases hwf with hw | ⟨w, hw, hf⟩
    · rw [hw]
      simp [he]
    · rw [hw]
      simp [he, hf]
  · intro w hw hf he hd
    unfold create_user create_user_checked
    rw [hw]
    simp [hf, he, hd]
  · intro hwf he
    refine ⟨?_, rfl⟩
    unfold create_user create_user_checked create_user_insert
    rcases hwf with hw | ⟨w, hw, hf, hd⟩
    · rw [hw]
      simp [he]
    · rw [hw]
      simp [he, hf, hd]
  · intro hu
    rcases create_user_cases s uid now p with h | ⟨h, he, _⟩
    · rw [h]; exact hu
    · rw [h]
      unfold EmailUnique at hu ⊢
      dsimp only
      refine Map.pairwise_insert hu ?_
      intro e hm
      have := Map.anyValue_eq_false he e hm
      simp only [beq_eq_false_iff_ne, ne_eq] at this
      constructor
      · simpa [new_user] using fun hh => this hh.symm
      · simpa [new_user] using this
  · intro hu
    rcases create_user_cases s uid now p with h | ⟨h, _, hwall⟩
    · rw [h]; exact hu
    · rw [h]
      unfold WalletUnique at hu ⊢
      dsimp only
      refine Map.pairwise_insert hu ?_
      intro e hm
      rcases hwall with hw | ⟨w, hw, hd⟩
      · constructor
        · intro w' hw'
          simp [new_user, hw] at hw'
        · intro w' _ hcontra
          simp [new_user, hw] at hcontra
      · have := Map.anyValue_eq_false hd e hm
        simp only [beq_eq_false_iff_ne, ne_eq] at this
        constructor
        · intro w' hw'
          simp only [new_user, hw] at hw'
          cases hw'
          exact this
        · intro w' _ hcontra
          simp only [new_user, hw] at hcontra
          cases hcontra
          exact this ‹e.2.wallet_address = some w›

/-- Witness for `c7_create_user_unique`: the four outcomes at concrete
requests against the state holding Carol. -/
theorem c7_create_user_unique_witness :
    create_user wallet_state "u-x" 1
      { email := "dave@example.com", name := "Dave", wallet_address := some "xyz" } =
      (Except.error (OpenBankError.InvalidWalletAddress "xyz"), wallet_state) ∧
    create_user wallet_state "u-x" 1
      { email := "carol@example.com", name := "Dave", wallet_address := none } =
      (Except.error (OpenBankError.UserAlreadyExists "carol@example.com"), wallet_state) ∧
    create_user wallet_state "u-x" 1
      { email := "dave@example.com", name := "Dave", wallet_address := some carol_wallet } =
      (Except.error (OpenBankError.InvalidWalletAddress carol_wallet), wallet_state) ∧
    create_user wallet_state "u-x" 1
      { email := "dave@example.com", name := "Dave", wallet_address := none } =
      (Except.ok (new_user "u-x" 1
          { email := "dave@example.com", name := "Dave", wallet_address := none }),
       { wallet_state with users := (Map.insert wallet_state.users "u-x" (new_user "u-x" 1
          { email := "dave@example.com", name := "Dave", wallet_address := none })) }) := by
  refine ⟨(c7_create_user_unique wallet_state "u-x" 1
      { email := "dave@example.com", name := "Dave", wallet_address := some "xyz" }).1
      "xyz" rfl (by decide),
    (c7_create_user_unique wallet_state "u-x" 1
      { email := "carol@example.com", name := "Dave", wallet_address := none }).2.1
      (Or.inl rfl) ?_,
    (c7_create_user_unique wallet_state "u-x" 1
      { email := "dave@example.com", name := "Dave", wallet_address := some carol_wallet }).2.2.1
      carol_wallet rfl (by decide) ?_ ?_,
    ((c7_create_user_unique wallet_state "u-x" 1
      { email := "dave@example.com", name := "Dave", wallet_address := none }).2.2.2.1
      (Or.inl rfl) ?_).1⟩ <;>
    rw [wallet_state_eval] <;> decide

/-- C8 counterexample: a transport timeout of the external call and an
explicit rejection carrying the same display string produce identical
results — both surface as `SmartContractError` with only a formatted
message, so no `Uncertain` outcome distinguishable from a plain failure
exists. -/
theorem c8_counterexample :
    withdraw_to_wallet wallet_state
      (SendFundsOutcome.sendError (EthersSendError.transportTimeout "connection reset"))
      { user_id := "carol-1", amount := 5, description := none } =
      (Except.error (OpenBankError.SmartContractError
        ("Failed to send withdrawal transaction: connection reset")), wallet_state) ∧
    withdraw_to_wallet wallet_state
      (SendFundsOutcome.sendError (EthersSendError.transportTimeout "connection reset"))
      { user_id := "carol-1", amount := 5, description := none } =
    withdraw_to_wallet wallet_state
      (SendFundsOutcome.sendError (EthersSendError.rejected "connection reset"))
      { user_id := "carol-1", amount := 5, description := none } := by
  rw [wallet_state_eval]
  constructor <;> decide

/-- C8 amended: when the outcome of the external `SendFunds` call cannot
be determined (transport timeout), the service surfaces
`SmartContractError` carrying only a formatted message — the same
constructor an explicit rejection produces, so the uncertain outcome is
not distinguishable from a plain settlement failure; it remains distinct
from success and from every validation-error constructor. -/
theorem c8_timeout_not_distinguishable (s : AppState) (p : WithdrawRequest)
    (u : User) (w : String) (d : String)
    (hu : Map.find? s.users p.user_id = some u) (hw : u.wallet_address = some w)
    (hpos : ¬ p.amount ≤ 0) (hc : s.contract_client = true)
    (hparse : address_parses w = true) :
    withdraw_to_wallet s
        (SendFundsOutcome.sendError (EthersSendError.transportTimeout d)) p =
      (Except.error (OpenBankError.SmartContractError
        ("Failed to send withdrawal transaction: " ++ d)), s) ∧
    withdraw_to_wallet s
        (SendFundsOutcome.sendError (EthersSendError.transportTimeout d)) p =
      withdraw_to_wallet s
        (SendFundsOutcome.sendError (EthersSendError.rejected d)) p ∧
    (∀ msg, OpenBankError.SmartContractError msg ≠ OpenBankError.InvalidAmount p.amount ∧
      OpenBankError.SmartContractError msg ≠ OpenBankError.UserNotFound p.user_id ∧
      OpenBankError.SmartContractError msg ≠ OpenBankError.NoWalletAddress ∧
      (∀ result : String, Except.error (OpenBankError.SmartContractError msg) ≠
        Except.ok result)) := by
  have hcall : ∀ e : EthersSendError,
      withdraw_to_wallet s (SendFundsOutcome.sendError e) p =
        (Except.error (OpenBankError.SmartContractError
          ("Failed to send withdrawal transaction: " ++ e.display)), s) := by
    intro e
    unfold withdraw_to_wallet
    rw [hu]
    dsimp only
    rw [hw]
    dsimp only
    rw [if_neg hpos]
    rw [hc]
    rw [if_pos rfl]
    unfold send_usdt_to_address
    simp [hparse]
  refine ⟨hcall (EthersSendError.transportTimeout d), ?_, ?_⟩
  · rw [hcall (EthersSendError.transportTimeout d), hcall (EthersSendError.rejected d)]
    rfl
  · intro msg
    refine ⟨?_, ?_, ?_, ?_⟩
    · intro hcontra
      cases hcontra
    · intro hcontra
      cases hcontra
    · intro hcontra
      cases hcontra
    · intro r hr
      cases hr

/-- Witness for `c8_timeout_not_distinguishable` at the state holding
Carol. -/
theorem c8_timeout_not_distinguishable_witness :
    withdraw_to_wallet wallet_state
        (SendFundsOutcome.sendError (EthersSendError.transportTimeout "gateway timeout"))
        { user_id := "carol-1", amount := 7, description := none } =
      (Except.error (OpenBankError.SmartContractError
        ("Failed to send withdrawal transaction: gateway timeout")), wallet_state) ∧
    withdraw_to_wallet wallet_state
        (SendFundsOutcome.sendError (EthersSendError.transportTimeout "gateway timeout"))
        { user_id := "carol-1", amount := 7, description := none } =
      withdraw_to_wallet wallet_state
        (SendFundsOutcome.sendError (EthersSendError.rejected "gateway timeout"))
        { user_id := "carol-1", amount := 7, description := none } ∧
    (∀ msg, OpenBankError.SmartContractError msg ≠ OpenBankError.InvalidAmount 7 ∧
      OpenBankError.SmartContractError msg ≠ OpenBankError.UserNotFound "carol-1" ∧
      OpenBankError.SmartContractError msg ≠ OpenBankError.NoWalletAddress ∧
      (∀ result : String, Except.error (OpenBankError.SmartContractError msg) ≠
        Except.ok result)) := by
  refine c8_timeout_not_distinguishable wallet_state
    { user_id := "carol-1", amount := 7, description := none }
    carol_user carol_wallet "gateway timeout" ?_ rfl (by norm_num) ?_ (by decide)
  · rw [wallet_state_eval]
    simp [Map.find?]
  · rw [wallet_state_eval]

/-- For a positive amount, the `as u64` cast of `amount * 10^6` computed by
`to_minor_units` is exactly floor-truncation saturated at `u64::MAX`. -/
theorem to_minor_units_floor (amount : ℚ) (h : 0 < amount) :
    to_minor_units amount = min (Int.toNat ⌊amount * 1000000⌋) u64_max := by
  unfold to_minor_units
  have hpos : 0 < amount * 1000000 := by positivity
  rw [if_neg (not_le.mpr hpos)]
  congr 1
  rw [Rat.floor_def]
  have hnum : 0 ≤ (amount * 1000000).num := Rat.num_nonneg.mpr hpos.le
  obtain ⟨n, hn⟩ := Int.eq_ofNat_of_zero_le hnum
  rw [hn]
  norm_cast

/-- C3 counterexample: the amount `1/2000000` loses precision at the 10^6
minor-unit scale (`amount * 10^6 = 1/2` is not an integer), yet the
conversion does not reject it — it truncates to `0`, and a withdrawal of
that amount succeeds, sending `0` minor units to the external system. -/
theorem c3_counterexample :
    (¬ ∃ n : ℤ, ((n : ℚ) = (1/2000000 : ℚ) * 1000000)) ∧
    to_minor_units (1/2000000 : ℚ) = 0 ∧
    (withdraw_to_wallet wallet_state SendFundsOutcome.delivered
      { user_id := "carol-1", amount := 1/2000000, description := none }).1 =
      Except.ok (success_message (1/2000000) carol_wallet) := by
  refine ⟨?_, ?_, ?_⟩
  · rintro ⟨n, hn⟩
    have h2 : ((2 * n : ℤ) : ℚ) = 1 := by
      push_cast
      rw [hn]
      ring
    have h3 : (2 * n : ℤ) = 1 := by exact_mod_cast h2
    omega
  · rw [to_minor_units_floor (1/2000000) (by norm_num)]
    rw [show ((1/2000000 : ℚ) * 1000000) = 1/2 by norm_num]
    rw [show ⌊(1/2 : ℚ)⌋ = 0 by norm_num]
    simp
  · rw [wallet_state_eval]
    unfold withdraw_to_wallet
    rw [show Map.find? [("carol-1", carol_user)] "carol-1" = some carol_user from rfl]
    dsimp only
    rw [show carol_user.wallet_address = some carol_wallet from rfl]
    dsimp only
    rw [if_neg (by norm_num : ¬ ((1/2000000 : ℚ) ≤ 0))]
    rw [if_pos rfl]
    unfold send_usdt_to_address
    rw [show address_parses carol_wallet = true from by decide]
    dsimp only
    rfl

/-- C3 amended: the conversion of a withdrawal amount to minor units is a
pure function equal, for positive amounts, to `⌊amount * 10^6⌋` saturated
at `u64::MAX`; it is exact whenever `amount * 10^6` is an integer within
range, but amounts that would lose precision are truncated toward zero
rather than rejected. -/
theorem c3_to_minor_units_truncates (amount : ℚ) (h : 0 < amount) :
    to_minor_units amount = min (Int.toNat ⌊amount * 1000000⌋) u64_max ∧
    (∀ n : ℕ, (n : ℚ) = amount * 1000000 → n ≤ u64_max →
      to_minor_units amount = n) := by
  refine ⟨to_minor_units_floor amount h, ?_⟩
  intro n hn hle
  unfold to_minor_units
  have hpos : 0 < amount * 1000000 := by positivity
  rw [if_neg (not_le.mpr hpos)]
  rw [← hn]
  simp [Nat.min_eq_left hle]

/-- Witness for `c3_to_minor_units_truncates` at the exactly representable
amount `1`. -/
theorem c3_to_minor_units_truncates_witness :
    to_minor_units 1 = min (Int.toNat ⌊(1 : ℚ) * 1000000⌋) u64_max ∧
    (∀ n : ℕ, (n : ℚ) = (1 : ℚ) * 1000000 → n ≤ u64_max →
      to_minor_units 1 = n) :=
  c3_to_minor_units_truncates 1 (by norm_num)

/-! Interleaving model for concurrent deposits (claim C9).  The locking
discipline of `deposit` makes exactly two blocks atomic: the balance
read-modify-write under the `accounts` write lock, and the history append
under the `transactions` write lock.  A concurrent execution of deposits
is any sequence of such atomic events. -/

/-- One lock-protected atomic block of `deposit`. -/
inductive DepositEvent where
  | balance_update (account_id : String) (amount : ℚ)
  | record_append (account_id : String) (txn : Transaction)
deriving DecidableEq

/-- The account an event touches. -/
def event_account : DepositEvent → String
  | .balance_update aid _ => aid
  | .record_append aid _ => aid

/-- Apply one atomic event to the shared state (the body of the
corresponding locked block of `deposit`). -/
def apply_event (s : AppState) (e : DepositEvent) : AppState :=
  match e with
  | .balance_update aid x =>
    { s with accounts := (Map.adjust s.accounts aid
        (fun a => { a with balance := a.balance + x })) }
  | .record_append aid txn =>
    { s with transactions := (Map.adjust s.transactions aid
        (fun l => l ++ [txn])) }

/-- Run a schedule (one interleaving) of atomic events. -/
def apply_events (s : AppState) (es : List DepositEvent) : AppState :=
  es.foldl apply_event s

/-- The amount an event contributes to the given account's balance. -/
def event_amount (aid : String) : DepositEvent → ℚ
  | .balance_update aid' x => if aid' = aid then x else 0
  | .record_append _ _ => 0

/-- Sum of the contributions of a schedule to the given account. -/
def events_sum (aid : String) (es : List DepositEvent) : ℚ :=
  (es.map (event_amount aid)).sum

theorem events_sum_cons (aid : String) (e : DepositEvent) (es : List DepositEvent) :
    events_sum aid (e :: es) = event_amount aid e + events_sum aid es := by
  simp [events_sum]

/-- After any schedule, the account's balance is its initial balance plus
the sum of the schedule's balance updates for it. -/
theorem apply_events_balance (es : List DepositEvent) (s : AppState) (aid : String)
    (acc : Account) (hacc : Map.find? s.accounts aid = some acc) :
    ∃ acc', Map.find? (apply_events s es).accounts aid = some acc' ∧
      acc'.balance = acc.balance + events_sum aid es := by
  induction es generalizing s acc with
  | nil => exact ⟨acc, hacc, by simp [events_sum]⟩
  | cons e rest ih =>
    cases e with
    | balance_update aid' x =>
      by_cases hk : aid' = aid
      · subst hk
        have hstep : Map.find? (apply_event s (DepositEvent.balance_update aid' x)).accounts
            aid' = some { acc with balance := acc.balance + x } := by
          simp [apply_event, Map.find?_adjust, hacc]
        obtain ⟨acc', h1, h2⟩ := ih _ _ hstep
        refine ⟨acc', h1, ?_⟩
        rw [h2]
        rw [events_sum_cons]
        simp [event_amount]
        ring
      · have hstep : Map.find? (apply_event s (DepositEvent.balance_update aid' x)).accounts
            aid = some acc := by
          simp [apply_event, Map.find?_adjust, hk, hacc]
        obtain ⟨acc', h1, h2⟩ := ih _ _ hstep
        refine ⟨acc', h1, ?_⟩
        rw [h2]
        rw [events_sum_cons]
        simp [event_amount, hk]
    | record_append aid' txn =>
      have hstep : Map.find? (apply_event s (DepositEvent.record_append aid' txn)).accounts
          aid = some acc := by
        simp [apply_event, hacc]
      obtain ⟨acc', h1, h2⟩ := ih _ _ hstep
      refine ⟨acc', h1, ?_⟩
      rw [h2]
      rw [events_sum_cons]
      simp [event_amount]

/-- Events on distinct accounts commute. -/
theorem apply_event_comm (t : AppState) (e1 e2 : DepositEvent)
    (hne : event_account e1 ≠ event_account e2) :
    apply_event (apply_event t e1) e2 = apply_event (apply_event t e2) e1 := by
  cases e1 with
  | balance_update a x =>
    cases e2 with
    | balance_update b y =>
      have hab : a ≠ b := hne
      simp only [apply_event]
      congr 1
      exact Map.adjust_comm t.accounts a b _ _ hab
    | record_append b txn => rfl
  | record_append a txn =>
    cases e2 with
    | balance_update b y => rfl
    | record_append b txn' =>
      have hab : a ≠ b := hne
      simp only [apply_event]
      congr 1
      exact Map.adjust_comm t.transactions a b _ _ hab

/-- C9: concurrency of deposits, modelled by interleavings of the two
lock-protected atomic events of `deposit`: (i) a successful deposit is
exactly its balance-update event followed by its record-append event;
(ii) after any schedule of events, an account's balance equals its
initial balance plus the sum of the balance updates for that account —
independent of the interleaving order, so no update is lost and
same-account deposits serialize to the arithmetic sum; (iii) events on
distinct accounts commute, so deposits on different accounts do not
interfere. -/
theorem c9_no_lost_updates (s : AppState) (es : List DepositEvent) (aid : String)
    (acc : Account) (hacc : Map.find? s.accounts aid = some acc)
    (tid : String) (now : Nat) (p : DepositRequest) (hpos : ¬ p.amount ≤ 0)
    (e1 e2 : DepositEvent) (hne : event_account e1 ≠ event_account e2) :
    ((deposit s aid tid now p).2 = apply_events s
      [DepositEvent.balance_update aid p.amount,
       DepositEvent.record_append aid (deposit_txn acc aid tid now p)]) ∧
    (∃ acc', Map.find? (apply_events s es).accounts aid = some acc' ∧
      acc'.balance = acc.balance + events_sum aid es) ∧
    (∀ t : AppState, apply_event (apply_event t e1) e2 =
      apply_event (apply_event t e2) e1) := by
  refine ⟨?_, apply_events_balance es s aid acc hacc,
    fun t => apply_event_comm t e1 e2 hne⟩
  rw [deposit_of_found s aid tid now p acc hpos hacc]
  rfl

/-- Witness for `c9_no_lost_updates`: a four-event schedule over the
scenario account, two deposits on it interleaved with one on another
account, summing to `150`. -/
theorem c9_no_lost_updates_witness :
    ((deposit scen_state2 "acct-1" "txn-1" 2
        { amount := 100, description := some "init" }).2 = apply_events scen_state2
      [DepositEvent.balance_update "acct-1" (100 : ℚ),
       DepositEvent.record_append "acct-1" (deposit_txn scen_account2 "acct-1" "txn-1" 2
         { amount := 100, description := some "init" })]) ∧
    (∃ acc', Map.find? (apply_events scen_state2
        [DepositEvent.balance_update "acct-1" (100 : ℚ),
         DepositEvent.balance_update "other" (7 : ℚ),
         DepositEvent.record_append "acct-1" scen_txn1,
         DepositEvent.balance_update "acct-1" (50 : ℚ)]).accounts "acct-1" = some acc' ∧
      acc'.balance = scen_account2.balance + events_sum "acct-1"
        [DepositEvent.balance_update "acct-1" (100 : ℚ),
         DepositEvent.balance_update "other" (7 : ℚ),
         DepositEvent.record_append "acct-1" scen_txn1,
         DepositEvent.balance_update "acct-1" (50 : ℚ)]) ∧
    (∀ t : AppState,
      apply_event (apply_event t (DepositEvent.balance_update "acct-1" (1 : ℚ)))
        (DepositEvent.balance_update "other" (2 : ℚ)) =
      apply_event (apply_event t (DepositEvent.balance_update "other" (2 : ℚ)))
        (DepositEvent.balance_update "acct-1" (1 : ℚ))) := by
  refine c9_no_lost_updates scen_state2
    [DepositEvent.balance_update "acct-1" (100 : ℚ),
     DepositEvent.balance_update "other" (7 : ℚ),
     DepositEvent.record_append "acct-1" scen_txn1,
     DepositEvent.balance_update "acct-1" (50 : ℚ)] "acct-1" scen_account2 ?_
    "txn-1" 2 { amount := 100, description := some "init" } (by norm_num)
    (DepositEvent.balance_update "acct-1" (1 : ℚ))
    (DepositEvent.balance_update "other" (2 : ℚ)) (by decide)
  rw [scen_state2_eval]
  simp [Map.find?]

end OpenBank
